import Mathlib

/-!
# Gear-shift haptic feedback simulator: formal model

A shallow embedding of `src/main.rs` (the `Car` struct with its
`calculate_rumble_intensity`, `upshift`, `downshift` and `trigger_rumble`
methods, and the event-dispatch loop of `main`).

Modelling conventions:
* `f32` arithmetic is modelled as exact rational arithmetic over `ℚ`;
* the `u8` gear counter is modelled as `ℕ`;
* the Rust saturating float-to-`u16` cast (`expr as u16`) is made explicit
  as `rustAsU16`;
* side effects (printed notices, the actuator call) are reified as fields of
  result structures so that theorems can speak about them.
-/

namespace GearChanger

/-- The `Car` struct of `main.rs`: torque (lb-ft), horsepower (display only),
the current gear, and the fixed normalization constant `max_torque`. -/
structure Car where
  torque : ℚ
  horsepower : ℚ
  current_gear : ℕ
  max_torque : ℚ
deriving DecidableEq

/-- `Car::new`: the gear starts at 3 and `max_torque` is fixed at 1000.0. -/
def Car.new (torque horsepower : ℚ) : Car :=
  { torque := torque
    horsepower := horsepower
    current_gear := 3
    max_torque := 1000 }

/-- `Car::calculate_rumble_intensity`: base intensity `torque / max_torque`,
multiplied by 1.3 on a downshift and by 0.8 on an upshift, then clamped into
`[0, 1]` by `.min(1.0).max(0.0)`. -/
def Car.calculate_rumble_intensity (self : Car) (is_downshift : Bool) : ℚ :=
  let intensity := self.torque / self.max_torque
  let intensity := if is_downshift then intensity * 1.3 else intensity * 0.8
  max (min intensity 1) 0

/-- Rust `expr as u16` on a float value: truncation toward zero, saturating
into `[0, 65535]`. For nonnegative values truncation toward zero is the
floor; negative values saturate to 0, which `Int.toNat` of the floor also
yields. -/
def rustAsU16 (x : ℚ) : ℕ :=
  min 65535 (Int.toNat ⌊x⌋)

/-- The rumble command sent to the gamepad by `set_rumble`. -/
structure RumbleCommand where
  strongMagnitude : ℕ
  weakMagnitude : ℕ
  durationMs : ℕ
deriving DecidableEq

/-- Observable outcome of `Car::trigger_rumble`: the command actually sent
(if any) and whether the "Rumble not supported" notice was printed. -/
structure ActuatorResult where
  command : Option RumbleCommand
  unsupportedNotice : Bool
deriving DecidableEq

/-- `Car::trigger_rumble`: duration is 200 ms for a downshift and 150 ms for
an upshift; when force feedback is supported, the magnitudes are
`intensity * 65535.0 as u16` and `intensity * 0.7 * 65535.0 as u16`;
otherwise no command is sent and the unsupported notice is printed. -/
def Car.trigger_rumble (_self : Car) (ff_supported : Bool) (intensity : ℚ)
    (is_downshift : Bool) : ActuatorResult :=
  let duration := if is_downshift then 200 else 150
  if ff_supported then
    { command := some
        { strongMagnitude := rustAsU16 (intensity * 65535)
          weakMagnitude := rustAsU16 (intensity * 0.7 * 65535)
          durationMs := duration }
      unsupportedNotice := false }
  else
    { command := none, unsupportedNotice := true }

/-- Observable outcome of `Car::upshift` / `Car::downshift`: the updated car,
the computed intensity when the computation ran, the actuator outcome, and
whether the "Already in highest/first gear!" boundary notice was printed. -/
structure ShiftResult where
  car : Car
  intensity : Option ℚ
  actuator : ActuatorResult
  boundaryNotice : Bool
deriving DecidableEq

/-- `Car::upshift`: when `current_gear < 6`, increment the gear, compute the
intensity with `is_downshift = false` and trigger the rumble; otherwise only
the boundary notice is printed. -/
def Car.upshift (self : Car) (ff_supported : Bool) : ShiftResult :=
  if self.current_gear < 6 then
    let car' := { self with current_gear := self.current_gear + 1 }
    let intensity := car'.calculate_rumble_intensity false
    { car := car'
      intensity := some intensity
      actuator := car'.trigger_rumble ff_supported intensity false
      boundaryNotice := false }
  else
    { car := self
      intensity := none
      actuator := { command := none, unsupportedNotice := false }
      boundaryNotice := true }

/-- `Car::downshift`: when `current_gear > 1`, decrement the gear, compute the
intensity with `is_downshift = true` and trigger the rumble; otherwise only
the boundary notice is printed. -/
def Car.downshift (self : Car) (ff_supported : Bool) : ShiftResult :=
  if self.current_gear > 1 then
    let car' := { self with current_gear := self.current_gear - 1 }
    let intensity := car'.calculate_rumble_intensity true
    { car := car'
      intensity := some intensity
      actuator := car'.trigger_rumble ff_supported intensity true
      boundaryNotice := false }
  else
    { car := self
      intensity := none
      actuator := { command := none, unsupportedNotice := false }
      boundaryNotice := true }

/-- The gilrs event kinds the main loop distinguishes: `Button::West`
(downshift), `Button::East` (upshift), `Button::Start` (exit), device
connect / disconnect, and everything else (ignored). -/
inductive GEventKind where
  | buttonWest
  | buttonEast
  | buttonStart
  | connected
  | disconnected
  | other
deriving DecidableEq

/-- A polled gilrs event: the id of the gamepad it concerns and its kind. -/
structure GEvent where
  id : ℕ
  event : GEventKind
deriving DecidableEq

/-- The state `main` keeps across loop iterations: the car and the
`active_gamepad` option. -/
structure Session where
  car : Car
  active_gamepad : Option ℕ
deriving DecidableEq

/-- Outcome of handling one polled event in the main loop: the new session
state, the actuator command issued (if any) and whether the loop returned. -/
structure StepResult where
  session : Session
  actuatorCall : Option RumbleCommand
  exited : Bool
deriving DecidableEq

/-- One iteration of the `match event` dispatch in `main`: shift buttons act
only `if let Some(gamepad_id) = active_gamepad`; `Start` returns; `Connected`
sets the active gamepad to the event's id; `Disconnected` clears it; other
events are ignored. `ff_supported` is the external device capability. -/
def step (ff_supported : Bool) (s : Session) (e : GEvent) : StepResult :=
  match e.event with
  | .buttonWest =>
    match s.active_gamepad with
    | some _ =>
      let r := s.car.downshift ff_supported
      { session := { s with car := r.car }
        actuatorCall := r.actuator.command
        exited := false }
    | none => { session := s, actuatorCall := none, exited := false }
  | .buttonEast =>
    match s.active_gamepad with
    | some _ =>
      let r := s.car.upshift ff_supported
      { session := { s with car := r.car }
        actuatorCall := r.actuator.command
        exited := false }
    | none => { session := s, actuatorCall := none, exited := false }
  | .buttonStart => { session := s, actuatorCall := none, exited := true }
  | .connected =>
    { session := { s with active_gamepad := some e.id }
      actuatorCall := none
      exited := false }
  | .disconnected =>
    { session := { s with active_gamepad := none }
      actuatorCall := none
      exited := false }
  | .other => { session := s, actuatorCall := none, exited := false }

/-- Drain a queue of polled events through `step`, collecting the actuator
commands issued along the way. -/
def runEvents (ff_supported : Bool) (s : Session) : List GEvent → Session × List RumbleCommand
  | [] => (s, [])
  | e :: es =>
    let r := step ff_supported s e
    let rest := runEvents ff_supported r.session es
    (rest.1, r.actuatorCall.toList ++ rest.2)

/-- Modelled from the spec: `clamp(x, lo, hi)` saturates `x` into
`[lo, hi]`. -/
def clamp (x lo hi : ℚ) : ℚ :=
  max lo (min x hi)

/-- The C2 scenario car: torque 1200, max torque 1000 (via `Car::new`),
already in gear 6. -/
def car_at_gear6 : Car :=
  { Car.new 1200 400 with current_gear := 6 }

/-- The concrete command `trigger_rumble` builds at intensity 1 on a
downshift, used to instantiate the universally quantified command of C4 and
C7 at a concrete input. -/
def witnessCommand : RumbleCommand :=
  { strongMagnitude := rustAsU16 ((1 : ℚ) * 65535)
    weakMagnitude := rustAsU16 ((1 : ℚ) * 0.7 * 65535)
    durationMs := 200 }

/-- A session with an active gamepad, for the C9 scenario. -/
def sessionW : Session :=
  { car := Car.new 300 400, active_gamepad := some 0 }

/-- A disconnect event for gamepad 0. -/
def eventDisc : GEvent :=
  { id := 0, event := GEventKind.disconnected }

/-- Two shift-control presses following the disconnect. -/
def eventsWE : List GEvent :=
  [{ id := 0, event := GEventKind.buttonWest },
   { id := 0, event := GEventKind.buttonEast }]

/-! ## Helper lemmas -/

lemma rustAsU16_eq_floor (x : ℚ) (hx0 : 0 ≤ x) (hx1 : x ≤ 65535) :
    (rustAsU16 x : ℤ) = ⌊x⌋ := by
  have h0 : 0 ≤ ⌊x⌋ := Int.floor_nonneg.mpr hx0
  have h1 : ⌊x⌋ ≤ 65535 := by
    have h := Int.floor_le_floor hx1
    simpa using h
  have htn : Int.toNat ⌊x⌋ ≤ 65535 := by omega
  simp only [rustAsU16]
  rw [min_eq_right htn]
  omega

lemma floor_scale_bound (x : ℚ) :
    |((⌊0.7 * x⌋ : ℤ) : ℚ) - 0.7 * ((⌊x⌋ : ℤ) : ℚ)| < 1 := by
  have h1 : ((⌊0.7 * x⌋ : ℤ) : ℚ) ≤ 0.7 * x := Int.floor_le _
  have h2 : 0.7 * x < ((⌊0.7 * x⌋ : ℤ) : ℚ) + 1 := Int.lt_floor_add_one _
  have h3 : ((⌊x⌋ : ℤ) : ℚ) ≤ x := Int.floor_le _
  have h4 : x < ((⌊x⌋ : ℤ) : ℚ) + 1 := Int.lt_floor_add_one _
  rw [abs_lt]
  constructor <;> linarith

lemma runEvents_no_active (ff : Bool) (s : Session) (hs : s.active_gamepad = none)
    (evs : List GEvent)
    (hevs : ∀ e ∈ evs, e.event = GEventKind.buttonWest ∨ e.event = GEventKind.buttonEast) :
    runEvents ff s evs = (s, []) := by
  induction evs with
  | nil => rfl
  | cons e es ih =>
    have he := hevs e (List.mem_cons_self e es)
    have hstep : step ff s e = { session := s, actuatorCall := none, exited := false } := by
      rcases he with h | h <;> simp [step, h, hs]
    simp only [runEvents, hstep]
    rw [ih (fun e' he' => hevs e' (List.mem_cons_of_mem e he'))]
    rfl

lemma upshift_car_gear (c : Car) (ff : Bool) :
    (c.upshift ff).car.current_gear =
      if c.current_gear < 6 then c.current_gear + 1 else c.current_gear := by
  simp only [Car.upshift]
  split <;> rfl

lemma downshift_car_gear (c : Car) (ff : Bool) :
    (c.downshift ff).car.current_gear =
      if c.current_gear > 1 then c.current_gear - 1 else c.current_gear := by
  simp only [Car.downshift]
  split <;> rfl

/-! ## Claims -/

/-- C1: for every torque t ≥ 0 and maxTorque m > 0, the rumble-intensity
function returns `clamp(0.8 * t/m, 0, 1)` when `is_downshift` is false and
`clamp(1.3 * t/m, 0, 1)` when `is_downshift` is true. -/
theorem C1_intensity_formula (t m hp : ℚ) (g : ℕ) (ht : 0 ≤ t) (hm : 0 < m) :
    (Car.mk t hp g m).calculate_rumble_intensity false = clamp (0.8 * (t / m)) 0 1 ∧
    (Car.mk t hp g m).calculate_rumble_intensity true = clamp (1.3 * (t / m)) 0 1 := by
  constructor
  · show max (min (t / m * 0.8) 1) 0 = max 0 (min (0.8 * (t / m)) 1)
    rw [mul_comm, max_comm]
  · show max (min (t / m * 1.3) 1) 0 = max 0 (min (1.3 * (t / m)) 1)
    rw [mul_comm, max_comm]

theorem C1_intensity_formula_witness :
    (0 : ℚ) ≤ 300 ∧ (0 : ℚ) < 1000 ∧
    ((Car.mk 300 400 3 1000).calculate_rumble_intensity false =
        clamp (0.8 * ((300 : ℚ) / 1000)) 0 1 ∧
      (Car.mk 300 400 3 1000).calculate_rumble_intensity true =
        clamp (1.3 * ((300 : ℚ) / 1000)) 0 1) :=
  ⟨by decide, by decide, C1_intensity_formula 300 1000 400 3 (by decide) (by decide)⟩

/-- C2 counterexample: upshift with the gear already at 6 (torque 1200, max
torque 1000) takes the boundary branch, so the intensity computation does not
run at all — in particular its result is not `some 0.96` as the claim
requires. -/
theorem C2_counterexample :
    ¬ ((car_at_gear6.upshift true).intensity = some (0.96 : ℚ) ∧
       (car_at_gear6.upshift true).car.current_gear = 6 ∧
       (car_at_gear6.upshift true).boundaryNotice = true) := by
  intro h
  have hnone : (car_at_gear6.upshift true).intensity = none := rfl
  rw [hnone] at h
  exact Option.noConfusion h.1

/-- C2 (amended): when upshift is invoked with the gear already at 6 (torque
1200, max torque 1000), the intensity computation is skipped (the boundary
branch neither computes an intensity nor issues an actuator command), the
gear remains 6 and the boundary notice is produced; had the computation run,
it would have yielded 0.8 * 1.2 = 0.96. -/
theorem C2_boundary_upshift :
    (car_at_gear6.upshift true).intensity = none ∧
    (car_at_gear6.upshift true).actuator.command = none ∧
    (car_at_gear6.upshift true).car.current_gear = 6 ∧
    (car_at_gear6.upshift true).boundaryNotice = true ∧
    car_at_gear6.calculate_rumble_intensity false = 0.96 := by
  refine ⟨rfl, rfl, rfl, rfl, ?_⟩
  simp only [Car.calculate_rumble_intensity, car_at_gear6, Car.new]
  norm_num

/-- C3: the gear counter is created at 3, every upshift and downshift keeps
it within [1, 6], and a blocked shift at a boundary leaves the car
unchanged. -/
theorem C3_gear_state_invariant (t hp : ℚ) (c : Car) (ff : Bool)
    (h1 : 1 ≤ c.current_gear) (h6 : c.current_gear ≤ 6) :
    (Car.new t hp).current_gear = 3 ∧
    (1 ≤ (c.upshift ff).car.current_gear ∧ (c.upshift ff).car.current_gear ≤ 6) ∧
    (1 ≤ (c.downshift ff).car.current_gear ∧ (c.downshift ff).car.current_gear ≤ 6) ∧
    (c.current_gear = 6 → (c.upshift ff).car = c) ∧
    (c.current_gear = 1 → (c.downshift ff).car = c) := by
  refine ⟨rfl, ?_, ?_, ?_, ?_⟩
  · rw [upshift_car_gear]
    split_ifs <;> omega
  · rw [downshift_car_gear]
    split_ifs <;> omega
  · intro hg
    simp only [Car.upshift, hg]
    norm_num
  · intro hg
    simp only [Car.downshift, hg]
    norm_num

theorem C3_gear_state_invariant_witness :
    1 ≤ (Car.new 300 400).current_gear ∧ (Car.new 300 400).current_gear ≤ 6 ∧
    ((Car.new 300 400).current_gear = 3 ∧
      (1 ≤ ((Car.new 300 400).upshift true).car.current_gear ∧
        ((Car.new 300 400).upshift true).car.current_gear ≤ 6) ∧
      (1 ≤ ((Car.new 300 400).downshift true).car.current_gear ∧
        ((Car.new 300 400).downshift true).car.current_gear ≤ 6) ∧
      ((Car.new 300 400).current_gear = 6 →
        ((Car.new 300 400).upshift true).car = Car.new 300 400) ∧
      ((Car.new 300 400).current_gear = 1 →
        ((Car.new 300 400).downshift true).car = Car.new 300 400)) :=
  ⟨by decide, by decide,
    C3_gear_state_invariant 300 400 (Car.new 300 400) true (by decide) (by decide)⟩

/-- C5: for every non-negative torque and positive max torque the returned
intensity lies within [0, 1]; out-of-range values are saturated by the
clamp, and the function is total (never an error). -/
theorem C5_intensity_in_unit_interval (c : Car) (d : Bool)
    (ht : 0 ≤ c.torque) (hm : 0 < c.max_torque) :
    0 ≤ c.calculate_rumble_intensity d ∧ c.calculate_rumble_intensity d ≤ 1 := by
  simp only [Car.calculate_rumble_intensity]
  exact ⟨le_max_right _ _, max_le (min_le_right _ _) (by norm_num)⟩

theorem C5_intensity_in_unit_interval_witness :
    (0 : ℚ) ≤ (Car.new 1200 400).torque ∧ (0 : ℚ) < (Car.new 1200 400).max_torque ∧
    (0 ≤ (Car.new 1200 400).calculate_rumble_intensity true ∧
      (Car.new 1200 400).calculate_rumble_intensity true ≤ 1) :=
  ⟨by decide, by decide,
    C5_intensity_in_unit_interval (Car.new 1200 400) true (by decide) (by decide)⟩

/-- C6: starting from gear 3, two downshifts reach gear 1 and a third leaves
it at 1; three upshifts reach gear 6 and a fourth leaves it at 6. -/
theorem C6_shift_sequences :
    ((((Car.new 300 400).downshift true).car.downshift true).car.current_gear = 1) ∧
    (((((Car.new 300 400).downshift true).car.downshift true).car.downshift
        true).car.current_gear = 1) ∧
    (((((Car.new 300 400).upshift true).car.upshift true).car.upshift
        true).car.current_gear = 6) ∧
    ((((((Car.new 300 400).upshift true).car.upshift true).car.upshift
        true).car.upshift true).car.current_gear = 6) :=
  ⟨rfl, rfl, rfl, rfl⟩

/-- C10: upshift followed by downshift restores any gear in [1, 5];
downshift followed by upshift restores any gear in [2, 6]. -/
theorem C10_shifts_mutually_inverse (c : Car) (ff : Bool) :
    (1 ≤ c.current_gear → c.current_gear ≤ 5 →
      ((c.upshift ff).car.downshift ff).car.current_gear = c.current_gear) ∧
    (2 ≤ c.current_gear → c.current_gear ≤ 6 →
      ((c.downshift ff).car.upshift ff).car.current_gear = c.current_gear) := by
  constructor
  · intro ha hb
    rw [downshift_car_gear, upshift_car_gear]
    split_ifs <;> omega
  · intro ha hb
    rw [upshift_car_gear, downshift_car_gear]
    split_ifs <;> omega

theorem C10_shifts_mutually_inverse_witness :
    1 ≤ (Car.new 300 400).current_gear ∧ (Car.new 300 400).current_gear ≤ 5 ∧
    (((Car.new 300 400).upshift true).car.downshift true).car.current_gear =
      (Car.new 300 400).current_gear :=
  ⟨by decide, by decide,
    (C10_shifts_mutually_inverse (Car.new 300 400) true).1 (by decide) (by decide)⟩

/-- C4 counterexample: the claim's `round` does not match the code. At
intensity 1/2 the command carries strong magnitude 32767 (Rust `as u16`
truncation of 32767.5), while `round(0.5 * 65535) = 32768`. -/
theorem C4_counterexample :
    ((Car.new 300 400).trigger_rumble true (1 / 2) false).command =
      some { strongMagnitude := 32767, weakMagnitude := 22937, durationMs := 150 } ∧
    (32767 : ℤ) ≠ round ((1 / 2 : ℚ) * 65535) := by
  constructor
  · have hs : rustAsU16 ((1 / 2 : ℚ) * 65535) = 32767 := by
      have h : ⌊(1 / 2 : ℚ) * 65535⌋ = 32767 := by norm_num
      simp only [rustAsU16, h]
      rfl
    have hw : rustAsU16 ((1 / 2 : ℚ) * 0.7 * 65535) = 22937 := by
      have h : ⌊(1 / 2 : ℚ) * 0.7 * 65535⌋ = 22937 := by norm_num
      simp only [rustAsU16, h]
      rfl
    simp only [Car.trigger_rumble, reduceIte, hs, hw]
    rfl
  · rw [round_eq]
    norm_num

/-- C4 (amended): for any intensity i in [0, 1] the actuator command carries
strong = ⌊i * 65535⌋ and weak = ⌊i * 0.7 * 65535⌋ — Rust's `as u16` cast
truncates toward zero rather than rounding to nearest — so the weak
magnitude is within one unit of 70% of the strong magnitude. -/
theorem C4_magnitudes_truncated (c : Car) (ff : Bool) (i : ℚ) (d : Bool)
    (cmd : RumbleCommand) (h0 : 0 ≤ i) (h1 : i ≤ 1)
    (hcmd : (c.trigger_rumble ff i d).command = some cmd) :
    (cmd.strongMagnitude : ℤ) = ⌊i * 65535⌋ ∧
    (cmd.weakMagnitude : ℤ) = ⌊i * 0.7 * 65535⌋ ∧
    |(cmd.weakMagnitude : ℚ) - 0.7 * (cmd.strongMagnitude : ℚ)| < 1 := by
  have hx0 : 0 ≤ i * 65535 := mul_nonneg h0 (by norm_num)
  have hx1 : i * 65535 ≤ 65535 := by nlinarith
  have hw0 : 0 ≤ i * 0.7 * 65535 := by nlinarith
  have hw1 : i * 0.7 * 65535 ≤ 65535 := by nlinarith
  cases ff with
  | false => simp [Car.trigger_rumble] at hcmd
  | true =>
    simp only [Car.trigger_rumble, reduceIte, Option.some.injEq] at hcmd
    subst hcmd
    refine ⟨rustAsU16_eq_floor _ hx0 hx1, rustAsU16_eq_floor _ hw0 hw1, ?_⟩
    have e1 : ((rustAsU16 (i * 65535) : ℕ) : ℚ) = ((⌊i * 65535⌋ : ℤ) : ℚ) := by
      exact_mod_cast rustAsU16_eq_floor (i * 65535) hx0 hx1
    have e2 : ((rustAsU16 (i * 0.7 * 65535) : ℕ) : ℚ) = ((⌊0.7 * (i * 65535)⌋ : ℤ) : ℚ) := by
      rw [show (0.7 : ℚ) * (i * 65535) = i * 0.7 * 65535 by ring]
      exact_mod_cast rustAsU16_eq_floor (i * 0.7 * 65535) hw0 hw1
    show |((rustAsU16 (i * 0.7 * 65535) : ℕ) : ℚ) -
        0.7 * ((rustAsU16 (i * 65535) : ℕ) : ℚ)| < 1
    rw [e1, e2]
    exact floor_scale_bound (i * 65535)

theorem C4_magnitudes_truncated_witness :
    (0 : ℚ) ≤ 1 ∧ (1 : ℚ) ≤ 1 ∧
    ((Car.new 300 400).trigger_rumble true 1 true).command = some witnessCommand ∧
    ((witnessCommand.strongMagnitude : ℤ) = ⌊(1 : ℚ) * 65535⌋ ∧
      (witnessCommand.weakMagnitude : ℤ) = ⌊(1 : ℚ) * 0.7 * 65535⌋ ∧
      |(witnessCommand.weakMagnitude : ℚ) - 0.7 * (witnessCommand.strongMagnitude : ℚ)| < 1) :=
  ⟨by decide, by decide, rfl,
    C4_magnitudes_truncated (Car.new 300 400) true 1 true witnessCommand
      (by decide) (by decide) rfl⟩

/-- C7: every rumble command issued for a downshift lasts exactly 200 ms and
every one issued for an upshift lasts exactly 150 ms, whatever the computed
intensity. -/
theorem C7_fixed_duration (c : Car) (ff : Bool) (i : ℚ) (d : Bool)
    (cmd : RumbleCommand)
    (hcmd : (c.trigger_rumble ff i d).command = some cmd) :
    cmd.durationMs = if d then 200 else 150 := by
  cases ff with
  | false => simp [Car.trigger_rumble] at hcmd
  | true =>
    simp only [Car.trigger_rumble, reduceIte, Option.some.injEq] at hcmd
    subst hcmd
    rfl

theorem C7_fixed_duration_witness :
    ((Car.new 300 400).trigger_rumble true 1 true).command = some witnessCommand ∧
    witnessCommand.durationMs = if true then 200 else 150 :=
  ⟨rfl, C7_fixed_duration (Car.new 300 400) true 1 true witnessCommand rfl⟩

/-- C8: with force feedback unsupported, no command is sent and the
non-fatal notice is reported, while the gear-state transition advances
exactly as with a supported device. -/
theorem C8_unsupported_ff_skips_actuator (c : Car) (i : ℚ) (d : Bool) :
    (c.trigger_rumble false i d).command = none ∧
    (c.trigger_rumble false i d).unsupportedNotice = true ∧
    (c.upshift false).car = (c.upshift true).car ∧
    (c.downshift false).car = (c.downshift true).car := by
  refine ⟨rfl, rfl, ?_, ?_⟩
  · by_cases h : c.current_gear < 6 <;> simp [Car.upshift, h]
  · by_cases h : c.current_gear > 1 <;> simp [Car.downshift, h]

/-- C9: after a disconnect event clears the active device, any stream of
shift-control presses leaves the session (gear state included) unchanged
and issues no actuator call. -/
theorem C9_disconnect_suppresses_shifts (ff : Bool) (s : Session) (e : GEvent)
    (he : e.event = GEventKind.disconnected) (evs : List GEvent)
    (hevs : ∀ e' ∈ evs,
      e'.event = GEventKind.buttonWest ∨ e'.event = GEventKind.buttonEast) :
    (step ff s e).session.active_gamepad = none ∧
    (step ff s e).actuatorCall = none ∧
    (step ff s e).session.car = s.car ∧
    runEvents ff (step ff s e).session evs = ((step ff s e).session, []) := by
  have h1 : (step ff s e).session.active_gamepad = none := by simp [step, he]
  exact ⟨h1, by simp [step, he], by simp [step, he],
    runEvents_no_active ff _ h1 evs hevs⟩

theorem C9_disconnect_suppresses_shifts_witness :
    eventDisc.event = GEventKind.disconnected ∧
    (∀ e' ∈ eventsWE,
      e'.event = GEventKind.buttonWest ∨ e'.event = GEventKind.buttonEast) ∧
    ((step true sessionW eventDisc).session.active_gamepad = none ∧
      (step true sessionW eventDisc).actuatorCall = none ∧
      (step true sessionW eventDisc).session.car = sessionW.car ∧
      runEvents true (step true sessionW eventDisc).session eventsWE =
        ((step true sessionW eventDisc).session, [])) :=
  ⟨rfl, by decide,
    C9_disconnect_suppresses_shifts true sessionW eventDisc rfl eventsWE (by decide)⟩

end GearChanger
